import Mathlib

/-!
Shallow embedding of the configuration-resolution layer of
`napi/transform/src/options.rs`: the external (all-optional) option
structures and the `From` impls that resolve them into the engine's
`oxc_transformer` option structures.  Rust `Option<T>` becomes Lean
`Option T`, `Either<A, B>` becomes a two-constructor sum, strings stay
`String`, and `PathBuf` is represented by its underlying string.
-/

/-- Embedding of `napi::Either`, the two-branch union used for
`rewrite_import_extensions` (bool | string) and `refresh` (bool | object). -/
inductive Either (α β : Type) where
  | A (a : α) : Either α β
  | B (b : β) : Either α β
deriving DecidableEq

/-- Modelled from the spec: `IsolatedDeclarationsConfig` is an opaque
pass-through sub-config (declaration emission), defined outside `options.rs`;
none of its fields matter to resolution, so it is a token type. -/
structure IsolatedDeclarationsOptions where
deriving DecidableEq

/-- External `TypeScriptOptions` (napi object): every field optional. -/
structure TypeScriptOptions where
  jsx_pragma : Option String
  jsx_pragma_frag : Option String
  only_remove_type_imports : Option Bool
  allow_namespaces : Option Bool
  allow_declare_fields : Option Bool
  declaration : Option IsolatedDeclarationsOptions
  rewrite_import_extensions : Option (Either Bool String)
deriving DecidableEq

/-- External `ReactRefreshOptions` (napi object). -/
structure ReactRefreshOptions where
  refresh_reg : Option String
  refresh_sig : Option String
  emit_full_signatures : Option Bool
deriving DecidableEq

/-- External `JsxOptions` (napi object). -/
structure JsxOptions where
  runtime : Option String
  development : Option Bool
  throw_if_namespace : Option Bool
  pure : Option Bool
  import_source : Option String
  pragma : Option String
  pragma_frag : Option String
  use_built_ins : Option Bool
  use_spread : Option Bool
  refresh : Option (Either Bool ReactRefreshOptions)
deriving DecidableEq

/-- External `ArrowFunctionsBindingOptions` (napi object). -/
structure ArrowFunctionsBindingOptions where
  spec : Option Bool
deriving DecidableEq

/-- External `ES2015BindingOptions` (napi object). -/
structure ES2015BindingOptions where
  arrow_function : Option ArrowFunctionsBindingOptions
deriving DecidableEq

/-- External top-level `TransformOptions` (napi object). -/
structure TransformOptions where
  source_type : Option String
  cwd : Option String
  typescript : Option TypeScriptOptions
  react : Option JsxOptions
  es2015 : Option ES2015BindingOptions
  sourcemap : Option Bool
deriving DecidableEq

/-- The `#[derive(Default)]` instance of the external `TransformOptions`:
every field is `None`, i.e. the entirely empty external configuration. -/
def TransformOptions.empty : TransformOptions :=
  { source_type := none, cwd := none, typescript := none, react := none
    es2015 := none, sourcemap := none }

namespace OxcTransformer

/-- Engine enum `oxc_transformer::JsxRuntime`. -/
inductive JsxRuntime where
  | Classic : JsxRuntime
  | Automatic : JsxRuntime
deriving DecidableEq

/-- Engine enum `oxc_transformer::RewriteExtensionsMode`. -/
inductive RewriteExtensionsMode where
  | Rewrite : RewriteExtensionsMode
  | Remove : RewriteExtensionsMode
deriving DecidableEq

/-- Resolved `oxc_transformer::TypeScriptOptions`; the field set is exactly
the exhaustive struct literal built in `options.rs`. -/
structure TypeScriptOptions where
  jsx_pragma : String
  jsx_pragma_frag : String
  only_remove_type_imports : Bool
  allow_namespaces : Bool
  allow_declare_fields : Bool
  optimize_const_enums : Bool
  rewrite_import_extensions : Option RewriteExtensionsMode
deriving DecidableEq

/-- Modelled from the spec: `oxc_transformer::TypeScriptOptions::default()`
lives in the engine crate, outside `src/`.  The spec (section 4.2) fixes
`only_remove_type_imports = false` and `rewrite_import_extensions` absent and
calls the rest "engine defaults"; the identifier defaults are represented by
the engine's documented pragma identifiers.  No claim depends on the exact
values of the engine-default fields. -/
def TypeScriptOptions.defaultVal : TypeScriptOptions :=
  { jsx_pragma := "React.createElement"
    jsx_pragma_frag := "React.Fragment"
    only_remove_type_imports := false
    allow_namespaces := true
    allow_declare_fields := false
    optimize_const_enums := false
    rewrite_import_extensions := none }

/-- Resolved `oxc_transformer::ReactRefreshOptions`. -/
structure ReactRefreshOptions where
  refresh_reg : String
  refresh_sig : String
  emit_full_signatures : Bool
deriving DecidableEq

/-- Modelled from the spec: `oxc_transformer::ReactRefreshOptions::default()`
is in the engine crate, outside `src/`.  The doc comments in `options.rs`
document the defaults `$RefreshReg$` and `$RefreshSig$`; the spec (section
4.4) says `emit_full_signatures` takes the engine default when absent, which
is `false`. -/
def ReactRefreshOptions.defaultVal : ReactRefreshOptions :=
  { refresh_reg := "$RefreshReg$"
    refresh_sig := "$RefreshSig$"
    emit_full_signatures := false }

/-- Resolved `oxc_transformer::JsxOptions`; the fields set by the struct
literal in `options.rs` (the spec's section 3 `JsxConfig` field set; the
`..Default::default()` remainder is outside the spec's data model). -/
structure JsxOptions where
  runtime : JsxRuntime
  development : Bool
  throw_if_namespace : Bool
  pure : Bool
  import_source : Option String
  pragma : Option String
  pragma_frag : Option String
  use_built_ins : Option Bool
  use_spread : Option Bool
  refresh : Option ReactRefreshOptions
deriving DecidableEq

/-- Modelled from the spec: `oxc_transformer::JsxOptions::default()` is in
the engine crate, outside `src/`.  The doc comments in `options.rs` document
`runtime = automatic`, `development = false`, `throw_if_namespace = true`,
`pure = true`; the pass-through option fields are absent by default and no
refresh instrumentation is on by default. -/
def JsxOptions.defaultVal : JsxOptions :=
  { runtime := JsxRuntime.Automatic
    development := false
    throw_if_namespace := true
    pure := true
    import_source := none
    pragma := none
    pragma_frag := none
    use_built_ins := none
    use_spread := none
    refresh := none }

/-- Resolved `oxc_transformer::ArrowFunctionsOptions`. -/
structure ArrowFunctionsOptions where
  spec : Bool
deriving DecidableEq

/-- Resolved `oxc_transformer::ES2015Options`. -/
structure ES2015Options where
  arrow_function : Option ArrowFunctionsOptions
deriving DecidableEq

/-- Modelled from the spec: `oxc_transformer::ES2015Options::default()` is in
the engine crate, outside `src/`; section 4.5 says an absent subsection means
arrow-function downleveling is not requested. -/
def ES2015Options.defaultVal : ES2015Options :=
  { arrow_function := none }

/-- Resolved `oxc_transformer::TransformOptions`: the fields set by the
struct literal in `options.rs` (`cwd`, `typescript`, `react`, `es2015`; the
`..Self::default()` remainder is outside the spec's data model).  `cwd` is a
`PathBuf`, represented by its string. -/
structure TransformOptions where
  cwd : String
  typescript : TypeScriptOptions
  react : JsxOptions
  es2015 : ES2015Options
deriving DecidableEq

end OxcTransformer

/-- Embedding of `impl From<TypeScriptOptions> for oxc_transformer::TypeScriptOptions`
(`options.rs` lines 83-113). -/
def TypeScriptOptions.toOxc (options : TypeScriptOptions) :
    OxcTransformer.TypeScriptOptions :=
  let ops := OxcTransformer.TypeScriptOptions.defaultVal
  { jsx_pragma := options.jsx_pragma.getD ops.jsx_pragma
    jsx_pragma_frag := options.jsx_pragma_frag.getD ops.jsx_pragma_frag
    only_remove_type_imports :=
      options.only_remove_type_imports.getD ops.only_remove_type_imports
    allow_namespaces := options.allow_namespaces.getD ops.allow_namespaces
    allow_declare_fields := options.allow_declare_fields.getD ops.allow_declare_fields
    optimize_const_enums := false
    rewrite_import_extensions :=
      options.rewrite_import_extensions.bind fun value =>
        match value with
        | Either.A v =>
          if v then some OxcTransformer.RewriteExtensionsMode.Rewrite else none
        | Either.B v =>
          match v with
          | "rewrite" => some OxcTransformer.RewriteExtensionsMode.Rewrite
          | "remove" => some OxcTransformer.RewriteExtensionsMode.Remove
          | _ => none }

/-- Embedding of `impl From<ReactRefreshOptions> for oxc_transformer::ReactRefreshOptions`
(`options.rs` lines 239-248). -/
def ReactRefreshOptions.toOxc (options : ReactRefreshOptions) :
    OxcTransformer.ReactRefreshOptions :=
  let ops := OxcTransformer.ReactRefreshOptions.defaultVal
  { refresh_reg := options.refresh_reg.getD ops.refresh_reg
    refresh_sig := options.refresh_sig.getD ops.refresh_sig
    emit_full_signatures :=
      options.emit_full_signatures.getD ops.emit_full_signatures }

/-- Embedding of `impl From<JsxOptions> for oxc_transformer::JsxOptions`
(`options.rs` lines 199-222).  Rust `b.then(f)` is `if b then some (f ()) else none`. -/
def JsxOptions.toOxc (options : JsxOptions) : OxcTransformer.JsxOptions :=
  let ops := OxcTransformer.JsxOptions.defaultVal
  { runtime :=
      match options.runtime with
      | some "classic" => OxcTransformer.JsxRuntime.Classic
      | _ => OxcTransformer.JsxRuntime.Automatic
    development := options.development.getD ops.development
    throw_if_namespace := options.throw_if_namespace.getD ops.throw_if_namespace
    pure := options.pure.getD ops.pure
    import_source := options.import_source
    pragma := options.pragma
    pragma_frag := options.pragma_frag
    use_built_ins := options.use_built_ins
    use_spread := options.use_spread
    refresh :=
      options.refresh.bind fun value =>
        match value with
        | Either.A b =>
          if b then some OxcTransformer.ReactRefreshOptions.defaultVal else none
        | Either.B options => some options.toOxc }

/-- Embedding of `impl From<ArrowFunctionsBindingOptions> for ArrowFunctionsOptions`
(`options.rs` lines 261-265); `unwrap_or_default` on `Option<bool>` is
`getD false`. -/
def ArrowFunctionsBindingOptions.toOxc (options : ArrowFunctionsBindingOptions) :
    OxcTransformer.ArrowFunctionsOptions :=
  { spec := options.spec.getD false }

/-- Embedding of `impl From<ES2015BindingOptions> for ES2015Options`
(`options.rs` lines 273-277). -/
def ES2015BindingOptions.toOxc (options : ES2015BindingOptions) :
    OxcTransformer.ES2015Options :=
  { arrow_function := options.arrow_function.map ArrowFunctionsBindingOptions.toOxc }

/-- Embedding of `impl From<TransformOptions> for oxc_transformer::TransformOptions`
(`options.rs` lines 43-53).  `options.cwd.map(PathBuf::from).unwrap_or_default()`
is the given path string, or `PathBuf::default()` — the empty path — when
absent; each subsection falls back to the engine default instance via
`unwrap_or_default`. -/
def TransformOptions.toOxc (options : TransformOptions) :
    OxcTransformer.TransformOptions :=
  { cwd := options.cwd.getD ""
    typescript :=
      (options.typescript.map TypeScriptOptions.toOxc).getD
        OxcTransformer.TypeScriptOptions.defaultVal
    react :=
      (options.react.map JsxOptions.toOxc).getD OxcTransformer.JsxOptions.defaultVal
    es2015 :=
      (options.es2015.map ES2015BindingOptions.toOxc).getD
        OxcTransformer.ES2015Options.defaultVal }

/-- The spec's `ResolvedConfig` (section 3): the engine options plus the
resolved `sourcemap` flag. -/
structure ResolvedConfig where
  engine : OxcTransformer.TransformOptions
  sourcemap : Bool
deriving DecidableEq

/-- The spec's top-level `resolve` (section 4.1).  The option translation is
the embedded `From` impl from `options.rs`; the `sourcemap` component is
modelled from the spec: the flag is consumed outside `options.rs`, and
section 4.1 says it "resolves to `false` unless explicitly `true`". -/
def resolve (options : TransformOptions) : ResolvedConfig :=
  { engine := options.toOxc
    sourcemap := options.sourcemap.getD false }

/-- The `#[derive(Default)]` instance of the external `TypeScriptOptions`:
every field `None`. -/
def TypeScriptOptions.empty : TypeScriptOptions :=
  { jsx_pragma := none, jsx_pragma_frag := none, only_remove_type_imports := none
    allow_namespaces := none, allow_declare_fields := none, declaration := none
    rewrite_import_extensions := none }

/-- The all-absent external `JsxOptions` object. -/
def JsxOptions.empty : JsxOptions :=
  { runtime := none, development := none, throw_if_namespace := none, pure := none
    import_source := none, pragma := none, pragma_frag := none
    use_built_ins := none, use_spread := none, refresh := none }

/-- External spelling of a resolved `RewriteExtensionsMode`. -/
def OxcTransformer.RewriteExtensionsMode.toExternal :
    OxcTransformer.RewriteExtensionsMode → String
  | OxcTransformer.RewriteExtensionsMode.Rewrite => "rewrite"
  | OxcTransformer.RewriteExtensionsMode.Remove => "remove"

/-- External spelling of a resolved `JsxRuntime`. -/
def OxcTransformer.JsxRuntime.toExternal : OxcTransformer.JsxRuntime → String
  | OxcTransformer.JsxRuntime.Classic => "classic"
  | OxcTransformer.JsxRuntime.Automatic => "automatic"

/-- Re-expresses resolved react-refresh options in external shape, every
field explicitly set. -/
def reexpressRefresh (r : OxcTransformer.ReactRefreshOptions) : ReactRefreshOptions :=
  { refresh_reg := some r.refresh_reg
    refresh_sig := some r.refresh_sig
    emit_full_signatures := some r.emit_full_signatures }

/-- Re-expresses resolved TypeScript options in external shape, every field
explicitly set (the resolved shape carries no declaration sub-config, so that
field stays absent; `optimize_const_enums` has no external field at all). -/
def reexpressTS (t : OxcTransformer.TypeScriptOptions) : TypeScriptOptions :=
  { jsx_pragma := some t.jsx_pragma
    jsx_pragma_frag := some t.jsx_pragma_frag
    only_remove_type_imports := some t.only_remove_type_imports
    allow_namespaces := some t.allow_namespaces
    allow_declare_fields := some t.allow_declare_fields
    declaration := none
    rewrite_import_extensions :=
      t.rewrite_import_extensions.map fun m => Either.B m.toExternal }

/-- Re-expresses resolved JSX options in external shape, every field
explicitly set to its resolved value. -/
def reexpressJsx (j : OxcTransformer.JsxOptions) : JsxOptions :=
  { runtime := some j.runtime.toExternal
    development := some j.development
    throw_if_namespace := some j.throw_if_namespace
    pure := some j.pure
    import_source := j.import_source
    pragma := j.pragma
    pragma_frag := j.pragma_frag
    use_built_ins := j.use_built_ins
    use_spread := j.use_spread
    refresh := j.refresh.map fun r => Either.B (reexpressRefresh r) }

/-- Re-expresses resolved ES2015 options in external shape. -/
def reexpressES (e : OxcTransformer.ES2015Options) : ES2015BindingOptions :=
  { arrow_function := e.arrow_function.map fun a => { spec := some a.spec } }

/-- Re-expresses a whole resolved configuration in external-config shape,
every field explicitly set to its resolved value. -/
def ResolvedConfig.reexpress (r : ResolvedConfig) : TransformOptions :=
  { source_type := none
    cwd := some r.engine.cwd
    typescript := some (reexpressTS r.engine.typescript)
    react := some (reexpressJsx r.engine.react)
    es2015 := some (reexpressES r.engine.es2015)
    sourcemap := some r.sourcemap }

lemma reexpressRefresh_toOxc (r : OxcTransformer.ReactRefreshOptions) :
    (reexpressRefresh r).toOxc = r := rfl

lemma reexpressTS_toOxc (t : OxcTransformer.TypeScriptOptions)
    (h : t.optimize_const_enums = false) : (reexpressTS t).toOxc = t := by
  obtain ⟨p1, p2, b1, b2, b3, oce, rw⟩ := t
  simp only at h
  subst h
  rcases rw with _ | m
  · rfl
  · cases m <;> rfl

lemma reexpressJsx_toOxc (j : OxcTransformer.JsxOptions) :
    (reexpressJsx j).toOxc = j := by
  obtain ⟨rt, dev, tns, pu, isrc, pg, pf, ub, us, rf⟩ := j
  cases rt <;> rcases rf with _ | rr <;> rfl

lemma reexpressES_toOxc (e : OxcTransformer.ES2015Options) :
    (reexpressES e).toOxc = e := by
  obtain ⟨af⟩ := e
  rcases af with _ | a <;> rfl

lemma toOxc_optimize_const_enums (o : TransformOptions) :
    o.toOxc.typescript.optimize_const_enums = false := by
  rcases o with ⟨st, cwd, ts, rc, es, sm⟩
  rcases ts with _ | t <;> rfl

lemma resolve_reexpress (r : ResolvedConfig)
    (h : r.engine.typescript.optimize_const_enums = false) :
    resolve r.reexpress = r := by
  obtain ⟨⟨cwd, ts, jsx, es⟩, sm⟩ := r
  simp only at h
  simp [resolve, ResolvedConfig.reexpress, TransformOptions.toOxc,
    reexpressTS_toOxc ts h, reexpressJsx_toOxc, reexpressES_toOxc]

/-- C1 counterexample: the claim as stated, instantiated at the concrete
process working directory `/root/workspace`, is false — the resolver maps an
absent `cwd` to `PathBuf::default()`, the empty path, which is not the
process's current working directory. -/
theorem c1_counterexample :
    ¬ ((resolve TransformOptions.empty).engine.cwd = "/root/workspace" ∧
       (resolve TransformOptions.empty).engine.react.runtime =
         OxcTransformer.JsxRuntime.Automatic ∧
       (resolve TransformOptions.empty).sourcemap = false ∧
       (resolve TransformOptions.empty).engine.typescript.rewrite_import_extensions
         = none ∧
       (resolve TransformOptions.empty).engine.react.refresh = none) := by
  intro h
  exact absurd h.1 (by decide)

/-- C1 (amended): resolving the entirely empty external configuration yields
the all-defaults resolved configuration, with `cwd` equal to the default
(empty) path — not the process's current working directory — jsx runtime
`Automatic`, sourcemap `false`, no rewrite-import-extensions, and no
react-refresh. -/
theorem c1_empty_config_resolves_to_defaults :
    (resolve TransformOptions.empty).engine.cwd = "" ∧
    (resolve TransformOptions.empty).engine.react.runtime =
      OxcTransformer.JsxRuntime.Automatic ∧
    (resolve TransformOptions.empty).sourcemap = false ∧
    (resolve TransformOptions.empty).engine.typescript.rewrite_import_extensions
      = none ∧
    (resolve TransformOptions.empty).engine.react.refresh = none ∧
    resolve TransformOptions.empty =
      { engine :=
          { cwd := ""
            typescript := OxcTransformer.TypeScriptOptions.defaultVal
            react := OxcTransformer.JsxOptions.defaultVal
            es2015 := OxcTransformer.ES2015Options.defaultVal }
        sourcemap := false } :=
  ⟨rfl, rfl, rfl, rfl, rfl, rfl⟩

/-- C2: `rewrite_import_extensions` resolves as: `true` to `Rewrite`, `false`
to absent, `"rewrite"` to `Rewrite`, `"remove"` to `Remove`, any other string
and an absent field to absent; the resolver is a total function, so no input
produces an error. -/
theorem c2_rewrite_import_extensions_resolution
    (o : TypeScriptOptions) (s : String)
    (h1 : s ≠ "rewrite") (h2 : s ≠ "remove") :
    ({ o with rewrite_import_extensions := some (Either.A true) }).toOxc.rewrite_import_extensions
      = some OxcTransformer.RewriteExtensionsMode.Rewrite ∧
    ({ o with rewrite_import_extensions := some (Either.A false) }).toOxc.rewrite_import_extensions
      = none ∧
    ({ o with rewrite_import_extensions := some (Either.B "rewrite") }).toOxc.rewrite_import_extensions
      = some OxcTransformer.RewriteExtensionsMode.Rewrite ∧
    ({ o with rewrite_import_extensions := some (Either.B "remove") }).toOxc.rewrite_import_extensions
      = some OxcTransformer.RewriteExtensionsMode.Remove ∧
    ({ o with rewrite_import_extensions := some (Either.B s) }).toOxc.rewrite_import_extensions
      = none ∧
    ({ o with rewrite_import_extensions := none }).toOxc.rewrite_import_extensions
      = none := by
  refine ⟨rfl, rfl, rfl, rfl, ?_, rfl⟩
  simp only [TypeScriptOptions.toOxc, Option.some_bind]

/-- C2 witness: the unrecognized string `"bogus"` resolves to absent. -/
theorem c2_witness :
    ({ TypeScriptOptions.empty with rewrite_import_extensions := some (Either.B "bogus") }).toOxc.rewrite_import_extensions
      = none :=
  (c2_rewrite_import_extensions_resolution TypeScriptOptions.empty "bogus"
    (by decide) (by decide)).2.2.2.2.1

/-- C3: the JSX `runtime` field resolves to `Classic` exactly when the input
string is `"classic"`; every other string (including `"AUTOMATIC"`) and an
absent field resolve to `Automatic`. -/
theorem c3_runtime_resolution (o : JsxOptions) (s : String) :
    (({ o with runtime := some s }).toOxc.runtime =
        OxcTransformer.JsxRuntime.Classic ↔ s = "classic") ∧
    ({ o with runtime := none }).toOxc.runtime =
      OxcTransformer.JsxRuntime.Automatic ∧
    ({ o with runtime := some "AUTOMATIC" }).toOxc.runtime =
      OxcTransformer.JsxRuntime.Automatic := by
  refine ⟨?_, rfl, rfl⟩
  simp only [JsxOptions.toOxc]
  split
  · next heq =>
    injection heq with heq
    simp [heq]
  · next hne =>
    constructor
    · intro h
      exact absurd h (by simp)
    · intro h
      exact absurd (congrArg some h) hne

/-- C4: the JSX `refresh` union resolves as: absent and `false` to no
react-refresh configuration; `true` to the all-default react-refresh
configuration; an object to the result of the react-refresh sub-resolver. -/
theorem c4_refresh_union_resolution (o : JsxOptions) (r : ReactRefreshOptions) :
    ({ o with refresh := none }).toOxc.refresh = none ∧
    ({ o with refresh := some (Either.A false) }).toOxc.refresh = none ∧
    ({ o with refresh := some (Either.A true) }).toOxc.refresh =
      some OxcTransformer.ReactRefreshOptions.defaultVal ∧
    ({ o with refresh := some (Either.B r) }).toOxc.refresh = some r.toOxc :=
  ⟨rfl, rfl, rfl, rfl⟩

/-- C5: the resolved `optimize_const_enums` field is `false` for every
external TypeScript configuration (the external surface has no such field and
the resolver hard-codes `false`). -/
theorem c5_optimize_const_enums_always_false (o : TypeScriptOptions) :
    o.toOxc.optimize_const_enums = false := rfl

/-- C6: an absent `arrowFunction` subsection resolves to no arrow-function
configuration, while an empty `arrowFunction` object resolves to an
arrow-function configuration with `spec = false`; the two results differ. -/
theorem c6_es2015_absent_vs_empty_object :
    ({ arrow_function := none } : ES2015BindingOptions).toOxc.arrow_function
      = none ∧
    ({ arrow_function := some { spec := none } } :
        ES2015BindingOptions).toOxc.arrow_function = some { spec := false } ∧
    ({ arrow_function := none } : ES2015BindingOptions).toOxc ≠
      ({ arrow_function := some { spec := none } } : ES2015BindingOptions).toOxc :=
  ⟨rfl, rfl, by decide⟩

/-- C7: the react-refresh resolver defaults each field independently: a
supplied `refreshReg`/`refreshSig` string or `emitFullSignatures` boolean is
kept and an absent one gets its fixed default, with no field influencing
another; in particular an object supplying only `refreshReg` resolves with
that identifier and defaults for the other two fields. -/
theorem c7_refresh_fields_independent_defaults
    (o : ReactRefreshOptions) (s t : String) (b : Bool) :
    ({ o with refresh_reg := some s }).toOxc.refresh_reg = s ∧
    ({ o with refresh_reg := none }).toOxc.refresh_reg = "$RefreshReg$" ∧
    ({ o with refresh_sig := some t }).toOxc.refresh_sig = t ∧
    ({ o with refresh_sig := none }).toOxc.refresh_sig = "$RefreshSig$" ∧
    ({ o with emit_full_signatures := some b }).toOxc.emit_full_signatures = b ∧
    ({ o with emit_full_signatures := none }).toOxc.emit_full_signatures =
      OxcTransformer.ReactRefreshOptions.defaultVal.emit_full_signatures ∧
    ({ o with refresh_reg := some s }).toOxc.refresh_sig = o.toOxc.refresh_sig ∧
    ({ o with refresh_reg := some s }).toOxc.emit_full_signatures =
      o.toOxc.emit_full_signatures ∧
    ({ refresh_reg := some "$Custom$", refresh_sig := none
       emit_full_signatures := none } : ReactRefreshOptions).toOxc =
      { refresh_reg := "$Custom$", refresh_sig := "$RefreshSig$"
        emit_full_signatures := false } :=
  ⟨rfl, rfl, rfl, rfl, rfl, rfl, rfl, rfl, rfl⟩

/-- C8: resolution is idempotent on fully-specified input: re-expressing a
resolved configuration in external shape, every field explicitly set to its
resolved value, and resolving again yields the same resolved configuration. -/
theorem c8_resolution_idempotent (o : TransformOptions) :
    resolve (resolve o).reexpress = resolve o :=
  resolve_reexpress (resolve o) (toOxc_optimize_const_enums o)

/-- C9: resolution is total: every external configuration — whatever strings
sit in `runtime` or `rewriteImportExtensions` — resolves to a configuration
whose enum fields lie in their closed variant sets, and never to an error. -/
theorem c9_resolution_total (o : TransformOptions) :
    ∃ r : ResolvedConfig, resolve o = r ∧
      (r.engine.react.runtime = OxcTransformer.JsxRuntime.Classic ∨
       r.engine.react.runtime = OxcTransformer.JsxRuntime.Automatic) ∧
      (r.engine.typescript.rewrite_import_extensions = none ∨
       r.engine.typescript.rewrite_import_extensions =
         some OxcTransformer.RewriteExtensionsMode.Rewrite ∨
       r.engine.typescript.rewrite_import_extensions =
         some OxcTransformer.RewriteExtensionsMode.Remove) := by
  refine ⟨resolve o, rfl, ?_, ?_⟩
  · match h : (resolve o).engine.react.runtime with
    | OxcTransformer.JsxRuntime.Classic => exact Or.inl rfl
    | OxcTransformer.JsxRuntime.Automatic => exact Or.inr rfl
  · match h : (resolve o).engine.typescript.rewrite_import_extensions with
    | none => exact Or.inl rfl
    | some OxcTransformer.RewriteExtensionsMode.Rewrite => exact Or.inr (Or.inl rfl)
    | some OxcTransformer.RewriteExtensionsMode.Remove => exact Or.inr (Or.inr rfl)

/-- C10: `refresh: true` and `refresh: {}` (all three sub-fields absent)
resolve to identical react-refresh configurations, both equal to the
all-defaults react-refresh configuration. -/
theorem c10_refresh_true_eq_empty_object (o : JsxOptions) :
    ({ o with refresh := some (Either.A true) }).toOxc.refresh =
      ({ o with refresh := some (Either.B
          { refresh_reg := none, refresh_sig := none
            emit_full_signatures := none }) }).toOxc.refresh ∧
    ({ o with refresh := some (Either.A true) }).toOxc.refresh =
      some OxcTransformer.ReactRefreshOptions.defaultVal :=
  ⟨rfl, rfl⟩
